import Mathlib

/-!
Verification of the cache-first LinkedIn profile retrieval logic implemented
twice in this repository: once in `linkedin_scraper_server.py` and once in
`mcp-brightdata-test.py`.  The shallow embedding below models JSON values,
the relevant parts of the Python runtime (`json.loads` is abstracted as a
parameter, `json.dumps`, truthiness, `dict.get`, string slicing/splitting),
the external collaborators (scrape provider, memory store) as response
oracles, and the two copies of the algorithm as pure functions that return a
result together with an explicit trace of the external calls they issue.
-/

set_option maxHeartbeats 1000000

/-- JSON values as produced by Python json parsing.  Numeric literals are
modelled as integers; none of the verified code performs numeric arithmetic
on payloads. -/
inductive Json where
  | null
  | bool (b : Bool)
  | num (n : Int)
  | str (s : String)
  | arr (xs : List Json)
  | obj (fields : List (String × Json))

namespace Json

/-- Python truthiness of a JSON-derived value (`if value:`). -/
def truthy : Json → Bool
  | .null => false
  | .bool b => b
  | .num n => n != 0
  | .str s => s != ""
  | .arr xs => !xs.isEmpty
  | .obj fs => !fs.isEmpty

end Json

/-- Python `dict.get(k)` on a parsed JSON object: first binding for `k`,
`None` (here `none`) when absent. -/
def pyGetKey (fs : List (String × Json)) (k : String) : Option Json :=
  (fs.find? (fun p => p.1 = k)).map (fun p => p.2)

/-- Python `dict.get(k, default)` on a parsed JSON object. -/
def pyGetD (fs : List (String × Json)) (k : String) (d : Json) : Json :=
  match pyGetKey fs k with
  | some v => v
  | none => d

/-- Escaping used when serializing a JSON string. -/
def jsonEscape (s : String) : String :=
  s.data.foldl
    (fun acc c =>
      if c = '\x22' then acc ++ "\\\x22"
      else if c = '\\' then acc ++ "\\\\"
      else if c = '\n' then acc ++ "\\n"
      else if c = '\t' then acc ++ "\\t"
      else if c = '\r' then acc ++ "\\r"
      else acc.push c) ""

mutual

/-- Serialization of a JSON value, modelling `json.dumps(-, ensure_ascii=False)`
with the default separators. -/
def Json.dumps : Json → String
  | .null => "null"
  | .bool b => if b then "true" else "false"
  | .num n => toString n
  | .str s => "\x22" ++ jsonEscape s ++ "\x22"
  | .arr xs => "[" ++ Json.dumpsList xs ++ "]"
  | .obj fs => "\x7b" ++ Json.dumpsFields fs ++ "\x7d"

/-- Comma-separated serialization of a list of JSON values. -/
def Json.dumpsList : List Json → String
  | [] => ""
  | [x] => Json.dumps x
  | x :: y :: xs => Json.dumps x ++ ", " ++ Json.dumpsList (y :: xs)

/-- Comma-separated serialization of the bindings of a JSON object. -/
def Json.dumpsFields : List (String × Json) → String
  | [] => ""
  | [(k, v)] => "\x22" ++ jsonEscape k ++ "\x22: " ++ Json.dumps v
  | (k, v) :: f :: fs =>
      "\x22" ++ jsonEscape k ++ "\x22: " ++ Json.dumps v ++ ", " ++
        Json.dumpsFields (f :: fs)

end

mutual

/-- Python `repr()` of a JSON-derived value, used when such a value is
rendered inside a container by an f-string. -/
def Json.pyRepr : Json → String
  | .null => "None"
  | .bool b => if b then "True" else "False"
  | .num n => toString n
  | .str s => "\x27" ++ s ++ "\x27"
  | .arr xs => "[" ++ Json.pyReprList xs ++ "]"
  | .obj fs => "\x7b" ++ Json.pyReprFields fs ++ "\x7d"

/-- Comma-separated `repr` of a list of JSON-derived values. -/
def Json.pyReprList : List Json → String
  | [] => ""
  | [x] => Json.pyRepr x
  | x :: y :: xs => Json.pyRepr x ++ ", " ++ Json.pyReprList (y :: xs)

/-- Comma-separated `repr` of the bindings of a JSON-derived dict. -/
def Json.pyReprFields : List (String × Json) → String
  | [] => ""
  | [(k, v)] => "\x27" ++ k ++ "\x27: " ++ Json.pyRepr v
  | (k, v) :: f :: fs =>
      "\x27" ++ k ++ "\x27: " ++ Json.pyRepr v ++ ", " ++
        Json.pyReprFields (f :: fs)

end

/-- Python `str()` of a JSON-derived value, as interpolated by an f-string. -/
def Json.pyStr : Json → String
  | .null => "None"
  | .bool b => if b then "True" else "False"
  | .num n => toString n
  | .str s => s
  | .arr xs => "[" ++ Json.pyReprList xs ++ "]"
  | .obj fs => "\x7b" ++ Json.pyReprFields fs ++ "\x7d"

/-- Errors the embedded Python code can raise. -/
inductive PyErr where
  /-- The explicit `raise Exception(...)` on scrape failure; carries the
  message text. -/
  | scrapeFailed (msg : String)
  /-- Python `AttributeError`, e.g. calling `.get` on a non-dict value. -/
  | attributeError
  /-- Python `TypeError`, e.g. slicing a non-subscriptable value. -/
  | typeError
  deriving DecidableEq, Repr

/-- Python slicing `value[:100]` as applied to a JSON-derived value:
defined for strings and lists, a `TypeError` otherwise. -/
def pySlice100 : Json → Except PyErr Json
  | .str s => .ok (.str (s.take 100))
  | .arr xs => .ok (.arr (xs.take 100))
  | _ => .error .typeError

/-- Python `value.rstrip("/")` on character lists. -/
def pyRstripSlashL (s : List Char) : List Char :=
  (s.reverse.dropWhile (fun c => c = '/')).reverse

/-- Python `value.split(sep)` for a one-character separator, on character
lists: keeps empty fragments and never returns an empty list. -/
def pySplitCharL (c : Char) : List Char → List (List Char)
  | [] => [[]]
  | x :: xs =>
    if x = c then [] :: pySplitCharL c xs
    else
      match pySplitCharL c xs with
      | [] => [[x]]
      | h :: t => (x :: h) :: t

/-- Python `value.split(sep)` for a one-character separator, on strings. -/
def pySplitChar (c : Char) (s : String) : List String :=
  (pySplitCharL c s.data).map String.mk

/-- Python `str.strip()` on character lists (over the ASCII whitespace
characters). -/
def pyStripL (s : List Char) : List Char :=
  ((s.dropWhile Char.isWhitespace).reverse.dropWhile Char.isWhitespace).reverse

/-- Python `value.strip()` on strings. -/
def pyStrip (s : String) : String :=
  String.mk (pyStripL s.data)

/-- The first line of the stripped response body, as computed by
`response.text.strip().split("\n")[0]`. -/
def firstLine (s : String) : String :=
  (pySplitChar '\n' (pyStrip s)).headD ""

/-- An HTTP response from the scrape provider: a status code and the raw
body text (`response.json()` is modelled as applying the ambient JSON
parse function to `text`). -/
structure HttpResp where
  status : Nat
  text : String
  deriving DecidableEq, Repr

/-- A provider interaction: `none` models the `requests` call itself
raising, `some h` a delivered HTTP response. -/
abbrev ProviderResp := Option HttpResp

/-- A record returned by the memory store search; the code reads only its
`text` payload. -/
structure MemRec where
  text : String
  deriving DecidableEq, Repr

/-- The kind of a stored memory record. -/
inductive MemoryTypeEnum where
  | semantic
  | episodic
  deriving DecidableEq, Repr

/-- A record handed to `create_long_term_memory`, mirroring the
`ClientMemoryRecord` constructor calls (entities keep the raw payload
values that are placed in the Python list). -/
structure ClientMemoryRecord where
  text : String
  memory_type : MemoryTypeEnum
  topics : List String
  entities : List Json
  nspace : String
  user_id : String

/-- Arguments of one `search_memory_tool` call; `min_relevance` is `none`
when the keyword is not passed. -/
structure SearchCall where
  query : String
  topics : List String
  user_id : String
  max_results : Nat
  min_relevance : Option ℚ
  deriving DecidableEq, Repr

/-- Externally observable effects of one `_scrape_new_profile` run. -/
structure ScrapeTrace where
  /-- Number of POSTs to the provider trigger endpoint. -/
  posts : Nat
  /-- The payloads submitted, in order. -/
  submitted : List Json
  /-- Number of GETs to the snapshot endpoint. -/
  polls : Nat
  /-- The `time.sleep` durations issued, in order. -/
  sleeps : List Nat

/-- The empty scrape trace (scraping never started). -/
def ScrapeTrace.empty : ScrapeTrace := ⟨0, [], 0, []⟩

/-- Externally observable effects of one orchestration run. -/
structure Trace where
  /-- The memory-store searches issued, in order. -/
  searches : List SearchCall
  /-- Provider-side effects. -/
  scrape : ScrapeTrace
  /-- Batches passed to `create_long_term_memory`, in order. -/
  writes : List (List ClientMemoryRecord)
  /-- Whether the memory-store client session was closed. -/
  closed : Bool

/-- The environment of one orchestration run: what the external
collaborators answer. -/
structure Env where
  /-- Records returned by the first (cache lookup) search. -/
  searchResp1 : List MemRec
  /-- Provider response to the i-th trigger POST. -/
  trigger : Nat → ProviderResp
  /-- Provider response to the i-th snapshot GET. -/
  poll : Nat → ProviderResp
  /-- Records returned by the second (pre-persist) search. -/
  searchResp2 : List MemRec

/-- Outcome of handling one poll response inside the result-wait loop. -/
inductive PollOutcome where
  /-- The loop returns this payload (`return result` / `return profile_data`). -/
  | success (payload : Json)
  /-- The loop returns `None` for this response. -/
  | failed
  /-- The loop sleeps 10 seconds and moves to the next attempt. -/
  | sleepRetry
  /-- The loop moves to the next attempt without sleeping (200 response
  whose stripped body has an empty first line). -/
  | retryNow

namespace linkedin_scraper_server

/-- The `payloads_to_try` list of `_scrape_new_profile`
(`linkedin_scraper_server.py`, lines 52-61). -/
def payloads_to_try (profile_url : String) : List Json :=
  [ .arr [.obj [("url", .str profile_url)]],
    .arr [.obj [("url", .str profile_url), ("endpoint", .str "linkedin_profile")]],
    .arr [.obj [("url", .str profile_url), ("endpoint", .str "linkedin")]],
    .arr [.obj [("url", .str profile_url), ("include_skills", .bool true)]] ]

/-- The job-submission loop of `_scrape_new_profile` (lines 63-83), started
at variant `i` with `fuel` variants left.  Returns the final value of the
`snapshot_id` variable (`none` when no 200 response with a parsed dict body
was received, or when that dict lacks the key) and the number of POSTs
made.  A non-200 status, a body that fails to parse, or a body that parses
to a non-dict (whose `.get` raises, caught by the `except`) all fall
through to the next variant; a 200 response with a dict body breaks the
loop unconditionally. -/
def triggerGo (loads : String → Option Json) (trigger : Nat → ProviderResp) :
    Nat → Nat → Option Json × Nat
  | _, 0 => (none, 0)
  | i, fuel + 1 =>
    match trigger i with
    | some h =>
      if h.status = 200 then
        match loads h.text with
        | some (.obj fs) => (pyGetKey fs "snapshot_id", 1)
        | _ =>
          let r := triggerGo loads trigger (i + 1) fuel
          (r.1, r.2 + 1)
      else
        let r := triggerGo loads trigger (i + 1) fuel
        (r.1, r.2 + 1)
    | none =>
      let r := triggerGo loads trigger (i + 1) fuel
      (r.1, r.2 + 1)

/-- The fixed polling budget (`max_attempts = 15`, line 93). -/
def max_attempts : Nat := 15

/-- Handling of a single poll response by the result-wait loop of
`_scrape_new_profile` (lines 95-137).  The two source branches for a 200
dict body with a `status` key (value `"running"` or any other value) both
sleep 10 and continue, so they collapse into one case here.  In the 202
branch the body is parsed for a log message: `result.get` on a body that
parses to a non-dict raises `AttributeError`, which the inner
`except json.JSONDecodeError` does not catch, so the outer except returns
`None` without sleeping; a dict body or a parse failure sleeps and
retries. -/
def pollStep (loads : String → Option Json) (r : ProviderResp) : PollOutcome :=
  match r with
  | none => .failed
  | some h =>
    if h.status = 200 then
      match loads h.text with
      | some j =>
        match j with
        | .obj fs =>
          match pyGetKey fs "status" with
          | some _ => .sleepRetry
          | none => .success j
        | _ => .success j
      | none =>
        if firstLine h.text ≠ "" then
          match loads (firstLine h.text) with
          | some p => .success p
          | none => .failed
        else .retryNow
    else if h.status = 202 then
      match loads h.text with
      | some (.obj _) => .sleepRetry
      | some _ => .failed
      | none => .sleepRetry
    else .failed

/-- The result-wait loop of `_scrape_new_profile` (lines 95-140), with
`fuel` attempts left, polling from attempt index `attempt`.  Returns the
payload (or `none`), the number of GETs made, and the sleep durations
issued. -/
def pollGo (loads : String → Option Json) (poll : Nat → ProviderResp) :
    Nat → Nat → Option Json × Nat × List Nat
  | _, 0 => (none, 0, [])
  | attempt, fuel + 1 =>
    match pollStep loads (poll attempt) with
    | .success j => (some j, 1, [])
    | .failed => (none, 1, [])
    | .sleepRetry =>
      let r := pollGo loads poll (attempt + 1) fuel
      (r.1, r.2.1 + 1, 10 :: r.2.2)
    | .retryNow =>
      let r := pollGo loads poll (attempt + 1) fuel
      (r.1, r.2.1 + 1, r.2.2)

/-- `_scrape_new_profile` (lines 35-140): job submission followed, when a
truthy snapshot id was obtained, by the result-wait loop. -/
def scrape_new_profile (loads : String → Option Json)
    (trigger poll : Nat → ProviderResp) (profile_url : String) :
    Option Json × ScrapeTrace :=
  let t := triggerGo loads trigger 0 (payloads_to_try profile_url).length
  let submitted := (payloads_to_try profile_url).take t.2
  match t.1 with
  | some v =>
    if v.truthy then
      let p := pollGo loads poll 0 max_attempts
      (p.1, ⟨t.2, submitted, p.2.1, p.2.2⟩)
    else (none, ⟨t.2, submitted, 0, []⟩)
  | none => (none, ⟨t.2, submitted, 0, []⟩)

/-- The username extraction `profile_url.rstrip("/").split("/")[-1]`
(line 148). -/
def username_of (profile_url : String) : String :=
  String.mk ((pySplitCharL '/' (pyRstripSlashL profile_url.data)).getLastD [])

/-- Arguments of the cache-lookup search (lines 160-166). -/
def cache_search (username user_id : String) : SearchCall :=
  { query := "LinkedIn profile " ++ username,
    topics := ["linkedin", "profile", username],
    user_id := user_id,
    max_results := 1,
    min_relevance := some (1 / 2) }

/-- Arguments of the pre-persist duplicate search (lines 186-192). -/
def existing_search (username user_id : String) : SearchCall :=
  { query := "LinkedIn profile " ++ username,
    topics := ["linkedin", "profile", username],
    user_id := user_id,
    max_results := 5,
    min_relevance := some (3 / 10) }

/-- The cache-hit check (lines 168-176): take the first returned record,
return its parsed text on success; an empty result or a parse failure both
fall through to scraping. -/
def cache_lookup (loads : String → Option Json) : List MemRec → Option Json
  | [] => none
  | m :: _ => loads m.text

/-- The expression `existing_data.get("linkedin_id") or
existing_data.get("id")` (line 200), with Python `or` semantics. -/
def existing_username_of (fs : List (String × Json)) : Option Json :=
  match pyGetKey fs "linkedin_id" with
  | some v => if v.truthy then some v else pyGetKey fs "id"
  | none => pyGetKey fs "id"

/-- The comparison `existing_username == username` (line 201): true exactly
when the stored indicator is the string `username`. -/
def matches_username (fs : List (String × Json)) (username : String) : Bool :=
  match existing_username_of fs with
  | some (.str s) => s == username
  | _ => false

/-- The duplicate-check loop over the wider search results (lines
195-206).  A record whose text fails to parse is skipped; a record whose
text parses to a non-dict raises `AttributeError` (the `except` clause
only catches `JSONDecodeError`); a match breaks with `True`. -/
def check_existing (loads : String → Option Json) (username : String) :
    List MemRec → Except PyErr Bool
  | [] => .ok false
  | m :: rest =>
    match loads m.text with
    | none => check_existing loads username rest
    | some (.obj fs) =>
      if matches_username fs username then .ok true
      else check_existing loads username rest
    | some _ => .error .attributeError

/-- Construction of the semantic profile record (lines 213-220).  The
chained access `scraped_data.get("current_company", {}).get("name", "")`
raises `AttributeError` when `current_company` is present but not a
dict. -/
def profile_record (username user_id : String) (fs : List (String × Json)) :
    Except PyErr ClientMemoryRecord :=
  match pyGetD fs "current_company" (.obj []) with
  | .obj ccfs =>
    .ok { text := Json.dumps (.obj fs),
          memory_type := .semantic,
          topics := ["linkedin", "profile", username, "scraped_data"],
          entities := [.str username, pyGetD fs "name" (.str ""),
                       pyGetD ccfs "name" (.str "")],
          nspace := "linkedin_scraper",
          user_id := user_id }
  | _ => .error .attributeError

/-- Construction of one episodic activity record (lines 226-235).  A
non-dict activity raises `AttributeError` on `.get`; a title value that is
not sliceable raises `TypeError`. -/
def activity_record (username user_id : String) (fs : List (String × Json))
    (activity : Json) : Except PyErr ClientMemoryRecord :=
  match activity with
  | .obj afs => do
    let sliced ← pySlice100 (pyGetD afs "title" (.str "No title"))
    .ok { text := username ++ " activity: " ++
            Json.pyStr (pyGetD afs "interaction" (.str "Unknown")) ++ " - " ++
            Json.pyStr sliced,
          memory_type := .episodic,
          topics := ["linkedin", "activity", username, "engagement"],
          entities := [.str username, pyGetD fs "name" (.str "")],
          nspace := "linkedin_scraper",
          user_id := user_id }
  | _ => .error .attributeError

/-- The activity loop (lines 224-236): runs only when the key is present
and truthy, over the first 10 events.  Iterating a truthy non-list value
raises (`AttributeError` for the characters of a string, `TypeError`
otherwise, from slicing/iterating). -/
def activity_records (username user_id : String) (fs : List (String × Json)) :
    Except PyErr (List ClientMemoryRecord) :=
  match pyGetKey fs "activity" with
  | some av =>
    if av.truthy then
      match av with
      | .arr items => (items.take 10).mapM (activity_record username user_id fs)
      | .str _ => .error .attributeError
      | _ => .error .typeError
    else .ok []
  | none => .ok []

/-- The batch of records built before the single
`create_long_term_memory` call (lines 210-236): the semantic profile
record followed by the episodic activity records.  Calling `.get` on a
non-dict payload raises `AttributeError`. -/
def build_memories (username : String) (scraped : Json) (user_id : String) :
    Except PyErr (List ClientMemoryRecord) :=
  match scraped with
  | .obj fs => do
    let pr ← profile_record username user_id fs
    let ars ← activity_records username user_id fs
    .ok (pr :: ars)
  | _ => .error .attributeError

/-- `smart_linkedin_scraper` (lines 142-245): cache lookup, fallback
scrape, duplicate check, guarded batch write; the memory client session is
closed on every exit path by the `finally` block, recorded in the
trace. -/
def smart_linkedin_scraper (loads : String → Option Json) (env : Env)
    (profile_url : String) (user_id : String) : Except PyErr Json × Trace :=
  let username := username_of profile_url
  let s1 := cache_search username user_id
  match cache_lookup loads env.searchResp1 with
  | some cached => (.ok cached, ⟨[s1], ScrapeTrace.empty, [], true⟩)
  | none =>
    let sc := scrape_new_profile loads env.trigger env.poll profile_url
    match sc.1 with
    | none =>
      (.error (.scrapeFailed ("Failed to scrape LinkedIn profile: " ++ profile_url)),
       ⟨[s1], sc.2, [], true⟩)
    | some scraped =>
      let s2 := existing_search username user_id
      match check_existing loads username env.searchResp2 with
      | .error e => (.error e, ⟨[s1, s2], sc.2, [], true⟩)
      | .ok true => (.ok scraped, ⟨[s1, s2], sc.2, [], true⟩)
      | .ok false =>
        match build_memories username scraped user_id with
        | .error e => (.error e, ⟨[s1, s2], sc.2, [], true⟩)
        | .ok recs => (.ok scraped, ⟨[s1, s2], sc.2, [recs], true⟩)

end linkedin_scraper_server

namespace mcp_brightdata_test

/-- The `payloads_to_try` list of `_scrape_new_profile`
(`mcp-brightdata-test.py`, lines 159-168). -/
def payloads_to_try (profile_url : String) : List Json :=
  [ .arr [.obj [("url", .str profile_url)]],
    .arr [.obj [("url", .str profile_url), ("endpoint", .str "linkedin_profile")]],
    .arr [.obj [("url", .str profile_url), ("endpoint", .str "linkedin")]],
    .arr [.obj [("url", .str profile_url), ("include_skills", .bool true)]] ]

/-- The job-submission loop of `_scrape_new_profile` (lines 170-199), started
at variant `i` with `fuel` variants left.  Returns the final value of the
`snapshot_id` variable (`none` when no 200 response with a parsed dict body
was received, or when that dict lacks the key) and the number of POSTs
made.  A non-200 status, a body that fails to parse, or a body that parses
to a non-dict (whose `.get` raises, caught by the `except`) all fall
through to the next variant; a 200 response with a dict body breaks the
loop unconditionally. -/
def triggerGo (loads : String → Option Json) (trigger : Nat → ProviderResp) :
    Nat → Nat → Option Json × Nat
  | _, 0 => (none, 0)
  | i, fuel + 1 =>
    match trigger i with
    | some h =>
      if h.status = 200 then
        match loads h.text with
        | some (.obj fs) => (pyGetKey fs "snapshot_id", 1)
        | _ =>
          let r := triggerGo loads trigger (i + 1) fuel
          (r.1, r.2 + 1)
      else
        let r := triggerGo loads trigger (i + 1) fuel
        (r.1, r.2 + 1)
    | none =>
      let r := triggerGo loads trigger (i + 1) fuel
      (r.1, r.2 + 1)

/-- The fixed polling budget (`max_attempts = 15`, line 210). -/
def max_attempts : Nat := 15

/-- Handling of a single poll response by the result-wait loop of
`_scrape_new_profile` (lines 212-263).  The two source branches for a 200
dict body with a `status` key (value `"running"` or any other value) both
sleep 10 and continue, so they collapse into one case here.  In the 202
branch the body is parsed for a log message: `result.get` on a body that
parses to a non-dict raises `AttributeError`, which the inner
`except json.JSONDecodeError` does not catch, so the outer except returns
`None` without sleeping; a dict body or a parse failure sleeps and
retries. -/
def pollStep (loads : String → Option Json) (r : ProviderResp) : PollOutcome :=
  match r with
  | none => .failed
  | some h =>
    if h.status = 200 then
      match loads h.text with
      | some j =>
        match j with
        | .obj fs =>
          match pyGetKey fs "status" with
          | some _ => .sleepRetry
          | none => .success j
        | _ => .success j
      | none =>
        if firstLine h.text ≠ "" then
          match loads (firstLine h.text) with
          | some p => .success p
          | none => .failed
        else .retryNow
    else if h.status = 202 then
      match loads h.text with
      | some (.obj _) => .sleepRetry
      | some _ => .failed
      | none => .sleepRetry
    else .failed

/-- The result-wait loop of `_scrape_new_profile` (lines 212-266), with
`fuel` attempts left, polling from attempt index `attempt`.  Returns the
payload (or `none`), the number of GETs made, and the sleep durations
issued. -/
def pollGo (loads : String → Option Json) (poll : Nat → ProviderResp) :
    Nat → Nat → Option Json × Nat × List Nat
  | _, 0 => (none, 0, [])
  | attempt, fuel + 1 =>
    match pollStep loads (poll attempt) with
    | .success j => (some j, 1, [])
    | .failed => (none, 1, [])
    | .sleepRetry =>
      let r := pollGo loads poll (attempt + 1) fuel
      (r.1, r.2.1 + 1, 10 :: r.2.2)
    | .retryNow =>
      let r := pollGo loads poll (attempt + 1) fuel
      (r.1, r.2.1 + 1, r.2.2)

/-- `_scrape_new_profile` (lines 142-266): job submission followed, when a
truthy snapshot id was obtained, by the result-wait loop. -/
def scrape_new_profile (loads : String → Option Json)
    (trigger poll : Nat → ProviderResp) (profile_url : String) :
    Option Json × ScrapeTrace :=
  let t := triggerGo loads trigger 0 (payloads_to_try profile_url).length
  let submitted := (payloads_to_try profile_url).take t.2
  match t.1 with
  | some v =>
    if v.truthy then
      let p := pollGo loads poll 0 max_attempts
      (p.1, ⟨t.2, submitted, p.2.1, p.2.2⟩)
    else (none, ⟨t.2, submitted, 0, []⟩)
  | none => (none, ⟨t.2, submitted, 0, []⟩)

/-- The username extraction `profile_url.rstrip("/").split("/")[-1]`
(line 346). -/
def username_of (profile_url : String) : String :=
  String.mk ((pySplitCharL '/' (pyRstripSlashL profile_url.data)).getLastD [])

/-- Arguments of the cache-lookup search (lines 358-364). -/
def cache_search (username user_id : String) : SearchCall :=
  { query := "LinkedIn profile " ++ username,
    topics := ["linkedin", "profile", username],
    user_id := user_id,
    max_results := 1,
    min_relevance := some (1 / 2) }

/-- Arguments of the pre-persist duplicate search (lines 384-390). -/
def existing_search (username user_id : String) : SearchCall :=
  { query := "LinkedIn profile " ++ username,
    topics := ["linkedin", "profile", username],
    user_id := user_id,
    max_results := 5,
    min_relevance := some (3 / 10) }

/-- The cache-hit check (lines 366-374): take the first returned record,
return its parsed text on success; an empty result or a parse failure both
fall through to scraping. -/
def cache_lookup (loads : String → Option Json) : List MemRec → Option Json
  | [] => none
  | m :: _ => loads m.text

/-- The expression `existing_data.get("linkedin_id") or
existing_data.get("id")` (line 398), with Python `or` semantics. -/
def existing_username_of (fs : List (String × Json)) : Option Json :=
  match pyGetKey fs "linkedin_id" with
  | some v => if v.truthy then some v else pyGetKey fs "id"
  | none => pyGetKey fs "id"

/-- The comparison `existing_username == username` (line 399): true exactly
when the stored indicator is the string `username`. -/
def matches_username (fs : List (String × Json)) (username : String) : Bool :=
  match existing_username_of fs with
  | some (.str s) => s == username
  | _ => false

/-- The duplicate-check loop over the wider search results (lines
392-404).  A record whose text fails to parse is skipped; a record whose
text parses to a non-dict raises `AttributeError` (the `except` clause
only catches `JSONDecodeError`); a match breaks with `True`. -/
def check_existing (loads : String → Option Json) (username : String) :
    List MemRec → Except PyErr Bool
  | [] => .ok false
  | m :: rest =>
    match loads m.text with
    | none => check_existing loads username rest
    | some (.obj fs) =>
      if matches_username fs username then .ok true
      else check_existing loads username rest
    | some _ => .error .attributeError

/-- Construction of the semantic profile record (lines 411-418).  The
chained access `scraped_data.get("current_company", {}).get("name", "")`
raises `AttributeError` when `current_company` is present but not a
dict. -/
def profile_record (username user_id : String) (fs : List (String × Json)) :
    Except PyErr ClientMemoryRecord :=
  match pyGetD fs "current_company" (.obj []) with
  | .obj ccfs =>
    .ok { text := Json.dumps (.obj fs),
          memory_type := .semantic,
          topics := ["linkedin", "profile", username, "scraped_data"],
          entities := [.str username, pyGetD fs "name" (.str ""),
                       pyGetD ccfs "name" (.str "")],
          nspace := "linkedin_scraper",
          user_id := user_id }
  | _ => .error .attributeError

/-- Construction of one episodic activity record (lines 424-433).  A
non-dict activity raises `AttributeError` on `.get`; a title value that is
not sliceable raises `TypeError`. -/
def activity_record (username user_id : String) (fs : List (String × Json))
    (activity : Json) : Except PyErr ClientMemoryRecord :=
  match activity with
  | .obj afs => do
    let sliced ← pySlice100 (pyGetD afs "title" (.str "No title"))
    .ok { text := username ++ " activity: " ++
            Json.pyStr (pyGetD afs "interaction" (.str "Unknown")) ++ " - " ++
            Json.pyStr sliced,
          memory_type := .episodic,
          topics := ["linkedin", "activity", username, "engagement"],
          entities := [.str username, pyGetD fs "name" (.str "")],
          nspace := "linkedin_scraper",
          user_id := user_id }
  | _ => .error .attributeError

/-- The activity loop (lines 422-434): runs only when the key is present
and truthy, over the first 10 events.  Iterating a truthy non-list value
raises (`AttributeError` for the characters of a string, `TypeError`
otherwise, from slicing/iterating). -/
def activity_records (username user_id : String) (fs : List (String × Json)) :
    Except PyErr (List ClientMemoryRecord) :=
  match pyGetKey fs "activity" with
  | some av =>
    if av.truthy then
      match av with
      | .arr items => (items.take 10).mapM (activity_record username user_id fs)
      | .str _ => .error .attributeError
      | _ => .error .typeError
    else .ok []
  | none => .ok []

/-- The batch of records built before the single
`create_long_term_memory` call (lines 407-434): the semantic profile
record followed by the episodic activity records.  Calling `.get` on a
non-dict payload raises `AttributeError`. -/
def build_memories (username : String) (scraped : Json) (user_id : String) :
    Except PyErr (List ClientMemoryRecord) :=
  match scraped with
  | .obj fs => do
    let pr ← profile_record username user_id fs
    let ars ← activity_records username user_id fs
    .ok (pr :: ars)
  | _ => .error .attributeError

/-- `smart_linkedin_scraper` (lines 333-443): cache lookup, fallback
scrape, duplicate check, guarded batch write; the memory client session is
closed on every exit path by the `finally` block, recorded in the
trace. -/
def smart_linkedin_scraper (loads : String → Option Json) (env : Env)
    (profile_url : String) (user_id : String) : Except PyErr Json × Trace :=
  let username := username_of profile_url
  let s1 := cache_search username user_id
  match cache_lookup loads env.searchResp1 with
  | some cached => (.ok cached, ⟨[s1], ScrapeTrace.empty, [], true⟩)
  | none =>
    let sc := scrape_new_profile loads env.trigger env.poll profile_url
    match sc.1 with
    | none =>
      (.error (.scrapeFailed ("Failed to scrape LinkedIn profile: " ++ profile_url)),
       ⟨[s1], sc.2, [], true⟩)
    | some scraped =>
      let s2 := existing_search username user_id
      match check_existing loads username env.searchResp2 with
      | .error e => (.error e, ⟨[s1, s2], sc.2, [], true⟩)
      | .ok true => (.ok scraped, ⟨[s1, s2], sc.2, [], true⟩)
      | .ok false =>
        match build_memories username scraped user_id with
        | .error e => (.error e, ⟨[s1, s2], sc.2, [], true⟩)
        | .ok recs => (.ok scraped, ⟨[s1, s2], sc.2, [recs], true⟩)

end mcp_brightdata_test

section Theorems

open linkedin_scraper_server

/-- C9: on every invocation of `smart_linkedin_scraper`, whatever the
environment answers and whichever exit path is taken (cache hit, scrape
failure, duplicate skip, persistence error, successful persist), the
memory-store client session opened at entry is recorded closed. -/
theorem session_closed_on_every_path (loads : String → Option Json) (env : Env)
    (profile_url user_id : String) :
    (linkedin_scraper_server.smart_linkedin_scraper loads env profile_url user_id).2.closed
      = true := by
  simp only [linkedin_scraper_server.smart_linkedin_scraper]
  repeat (first | rfl | split)

/-- C1: if the cache-lookup search (issued with `max_results = 1` and
`min_relevance = 0.5`, as recorded by `cache_search`) returns at least one
record and the text of the first record deserializes, the orchestrator
returns the deserialized data unchanged, performs no provider POST or GET
(`ScrapeTrace.empty`), and issues no write. -/
theorem cache_hit_returns_cached (loads : String → Option Json) (env : Env)
    (profile_url user_id : String) (m : MemRec) (rest : List MemRec) (d : Json)
    (h1 : env.searchResp1 = m :: rest) (h2 : loads m.text = some d) :
    linkedin_scraper_server.smart_linkedin_scraper loads env profile_url user_id =
      (.ok d,
       ⟨[cache_search (username_of profile_url) user_id], ScrapeTrace.empty, [], true⟩) := by
  unfold linkedin_scraper_server.smart_linkedin_scraper
  rw [h1]
  simp only [cache_lookup, h2]

/-- Witness for C1 at a concrete environment: a single cached record whose
text parses to a profile object. -/
theorem cache_hit_returns_cached_witness :
    linkedin_scraper_server.smart_linkedin_scraper
        (fun s => if s = "CACHED" then some (.obj [("name", .str "Jane")]) else none)
        ⟨[⟨"CACHED"⟩], fun _ => none, fun _ => none, []⟩
        "https://www.linkedin.com/in/jane-doe/" "api_user" =
      (.ok (.obj [("name", .str "Jane")]),
       ⟨[cache_search (username_of "https://www.linkedin.com/in/jane-doe/") "api_user"],
        ScrapeTrace.empty, [], true⟩) :=
  cache_hit_returns_cached _ _ _ _ ⟨"CACHED"⟩ [] _ rfl rfl

/-- C7: if the first record returned by the cache-lookup search fails to
deserialize, the orchestrator behaves exactly as it does on an empty search
result: same result, same trace, no error surfaced for the corrupt
record. -/
theorem cache_corruption_behaves_as_miss (loads : String → Option Json) (env : Env)
    (profile_url user_id : String) (m : MemRec) (rest : List MemRec)
    (h1 : env.searchResp1 = m :: rest) (h2 : loads m.text = none) :
    linkedin_scraper_server.smart_linkedin_scraper loads env profile_url user_id =
      linkedin_scraper_server.smart_linkedin_scraper loads
        { env with searchResp1 := [] } profile_url user_id := by
  unfold linkedin_scraper_server.smart_linkedin_scraper
  rw [h1]
  simp only [cache_lookup, h2]

/-- Witness for C7 at a concrete environment: one corrupt cached record, a
provider that rejects every submission, on both sides of the equation. -/
theorem cache_corruption_behaves_as_miss_witness :
    linkedin_scraper_server.smart_linkedin_scraper (fun _ => none)
        ⟨[⟨"garbage"⟩], fun _ => some ⟨400, ""⟩, fun _ => none, []⟩
        "https://www.linkedin.com/in/jane-doe/" "api_user" =
      linkedin_scraper_server.smart_linkedin_scraper (fun _ => none)
        ⟨[], fun _ => some ⟨400, ""⟩, fun _ => none, []⟩
        "https://www.linkedin.com/in/jane-doe/" "api_user" :=
  cache_corruption_behaves_as_miss _ _ _ _ ⟨"garbage"⟩ [] rfl rfl

/-- A provider poll response that reports an in-progress status and is
tolerated by the loop: HTTP 202 whose body parses to a dict or fails to
parse (a 202 body parsing to a non-dict instead fails the loop, see
`pollStep`), or HTTP 200 whose body parses to a dict carrying a `status`
key. -/
def inProgressResp (loads : String → Option Json) (r : ProviderResp) : Prop :=
  ∃ h, r = some h ∧
    ((h.status = 202 ∧
       (loads h.text = none ∨ ∃ fs, loads h.text = some (.obj fs))) ∨
     (h.status = 200 ∧ ∃ fs, loads h.text = some (.obj fs) ∧
        (pyGetKey fs "status").isSome))

/-- An in-progress poll response makes the poll loop sleep 10 and retry. -/
theorem pollStep_of_inProgress (loads : String → Option Json) (r : ProviderResp)
    (h : inProgressResp loads r) : pollStep loads r = .sleepRetry := by
  obtain ⟨hr, rfl, hcase⟩ := h
  rcases hcase with ⟨h202, hbody⟩ | ⟨h200, fs, hloads, hkey⟩
  · rcases hbody with hnone | ⟨fs, hfs⟩
    · simp [pollStep, h202, hnone]
    · simp [pollStep, h202, hfs]
  · obtain ⟨v, hv⟩ := Option.isSome_iff_exists.mp hkey
    simp [pollStep, h200, hloads, hv]

/-- The poll loop under a provider that always reports in-progress: it
exhausts its fuel, sleeping 10 after each attempt, and returns no data. -/
theorem pollGo_all_inProgress (loads : String → Option Json)
    (poll : Nat → ProviderResp) (h : ∀ i, inProgressResp loads (poll i)) :
    ∀ (fuel k : Nat), pollGo loads poll k fuel = (none, fuel, List.replicate fuel 10) := by
  intro fuel
  induction fuel with
  | zero => intro k; rfl
  | succ n ih =>
    intro k
    unfold pollGo
    rw [pollStep_of_inProgress loads (poll k) (h k), ih (k + 1)]
    rfl

/-- C2, amended: when the provider reports an in-progress status on every
poll — HTTP 200 with a dict status body, or HTTP 202 whose body parses to
a dict or fails to parse — the poll loop of `_scrape_new_profile`
performs exactly 15 GET attempts (`max_attempts`), each followed by a
fixed sleep of 10 time units (no backoff), and then stops returning no
data — the timed-out outcome. -/
theorem poller_times_out_after_15 (loads : String → Option Json)
    (poll : Nat → ProviderResp) (h : ∀ i, inProgressResp loads (poll i)) :
    pollGo loads poll 0 max_attempts = (none, 15, List.replicate 15 10) :=
  pollGo_all_inProgress loads poll h 15 0

/-- Witness for C2 (amended): a provider that always answers HTTP 202
with an unparseable body. -/
theorem poller_times_out_after_15_witness :
    pollGo (fun _ => none) (fun _ => some ⟨202, ""⟩) 0 max_attempts =
      (none, 15, List.replicate 15 10) :=
  poller_times_out_after_15 (fun _ => none) (fun _ => some ⟨202, ""⟩)
    (fun _ => ⟨⟨202, ""⟩, rfl, Or.inl ⟨rfl, Or.inl rfl⟩⟩)

/-- Counterexample to C2 as stated: a provider that reports HTTP 202 on
every poll, with a body that parses to a JSON array.  The `result.get`
call on the parsed body raises `AttributeError`, which the inner
`except json.JSONDecodeError` does not catch, so the poll loop returns no
data after a single attempt with no sleep — not after 15 attempts with a
10-unit delay each. -/
theorem poller_not_15_on_202_array_body :
    (∀ i : Nat, ((fun _ => some (HttpResp.mk 202 "ARR") : Nat → ProviderResp) i).map
        HttpResp.status = some 202) ∧
    pollGo (fun s => if s = "ARR" then some (Json.arr []) else none)
        (fun _ => some ⟨202, "ARR"⟩) 0 max_attempts = (none, 1, []) ∧
    pollGo (fun s => if s = "ARR" then some (Json.arr []) else none)
        (fun _ => some ⟨202, "ARR"⟩) 0 max_attempts ≠
      (none, 15, List.replicate 15 10) := by
  refine ⟨fun i => rfl, rfl, ?_⟩
  intro hcon
  have h1 : pollGo (fun s => if s = "ARR" then some (Json.arr []) else none)
      (fun _ => some ⟨202, "ARR"⟩) 0 max_attempts =
      ((none : Option Json), 1, ([] : List Nat)) := rfl
  rw [h1] at hcon
  have h2 := congrArg (fun p => p.2.1) hcon
  simp at h2

end Theorems

section IdentityKey

open linkedin_scraper_server

/-- Splitting never produces the empty list of fragments. -/
theorem pySplitCharL_ne_nil (c : Char) (l : List Char) : pySplitCharL c l ≠ [] := by
  induction l with
  | nil => simp [pySplitCharL]
  | cons x xs ih =>
    simp only [pySplitCharL]
    split
    · simp
    · split
      · simp
      · simp

/-- Unfolding equation of the split at a separator character. -/
theorem pySplitCharL_cons_sep (c : Char) (xs : List Char) :
    pySplitCharL c (c :: xs) = [] :: pySplitCharL c xs := by
  simp [pySplitCharL]

/-- Unfolding equation of the split at a non-separator character. -/
theorem pySplitCharL_cons_ne (c x : Char) (xs : List Char) (hx : x ≠ c) :
    pySplitCharL c (x :: xs) =
      match pySplitCharL c xs with
      | [] => [[x]]
      | h :: t => (x :: h) :: t := by
  simp [pySplitCharL, hx]

/-- Appending the separator appends one empty fragment to the split. -/
theorem pySplitCharL_append_sep (c : Char) (l : List Char) :
    pySplitCharL c (l ++ [c]) = pySplitCharL c l ++ [[]] := by
  induction l with
  | nil => simp [pySplitCharL]
  | cons x xs ih =>
    by_cases hx : x = c
    · subst hx
      rw [List.cons_append, pySplitCharL_cons_sep, pySplitCharL_cons_sep, ih]
      rfl
    · rw [List.cons_append, pySplitCharL_cons_ne c x _ hx, pySplitCharL_cons_ne c x _ hx, ih]
      rcases hS : pySplitCharL c xs with _ | ⟨h, t⟩
      · exact absurd hS (pySplitCharL_ne_nil c xs)
      · simp

/-- Stripping trailing separators is unaffected by appending one more. -/
theorem pyRstripSlashL_append_sep (l : List Char) :
    pyRstripSlashL (l ++ ['/']) = pyRstripSlashL l := by
  simp [pyRstripSlashL, List.dropWhile_cons]

/-- The non-empty fragments of the split are unchanged by stripping
trailing separators. -/
theorem filter_split_pyRstripSlashL (l : List Char) :
    (pySplitCharL '/' (pyRstripSlashL l)).filter (fun seg => seg ≠ []) =
      (pySplitCharL '/' l).filter (fun seg => seg ≠ []) := by
  rw [pyRstripSlashL]
  conv_rhs => rw [← List.reverse_reverse l]
  generalize l.reverse = r
  induction r with
  | nil => rfl
  | cons a r' ih =>
    by_cases ha : a = '/'
    · subst ha
      rw [List.dropWhile_cons, if_pos (by simp)]
      rw [List.reverse_cons, pySplitCharL_append_sep, List.filter_append]
      simpa using ih
    · rw [List.dropWhile_cons, if_neg (by simpa using ha)]

/-- The head of `dropWhile` does not satisfy the predicate. -/
theorem head?_dropWhile_not {α} (p : α → Bool) :
    ∀ (l : List α) (x : α), (l.dropWhile p).head? = some x → p x = false
  | [], x, h => by simp [List.dropWhile] at h
  | a :: t, x, h => by
    rw [List.dropWhile_cons] at h
    by_cases hpa : p a = true
    · rw [if_pos hpa] at h
      exact head?_dropWhile_not p t x h
    · rw [if_neg hpa] at h
      simp only [List.head?_cons, Option.some.injEq] at h
      subst h
      simpa using hpa

/-- A stripped URL does not end with the separator. -/
theorem pyRstripSlashL_getLast_ne (l : List Char) :
    (pyRstripSlashL l).getLast? ≠ some '/' := by
  rw [pyRstripSlashL, List.getLast?_reverse]
  intro hcon
  have := head?_dropWhile_not _ _ _ hcon
  simp at this

/-- Splitting a non-empty list that does not end with the separator yields
a non-empty last fragment. -/
theorem split_getLast_ne_nil :
    ∀ (m : List Char), m ≠ [] → m.getLast? ≠ some '/' →
      ∃ seg, (pySplitCharL '/' m).getLast? = some seg ∧ seg ≠ []
  | [], hm, _ => absurd rfl hm
  | [x], _, hl => by
    have hx : x ≠ '/' := by simpa using hl
    refine ⟨[x], ?_, by simp⟩
    rw [pySplitCharL_cons_ne '/' x [] hx]
    rfl
  | x :: y :: t, _, hl => by
    have hl' : (y :: t).getLast? ≠ some '/' := by
      rwa [List.getLast?_cons_cons] at hl
    obtain ⟨seg, hseg, hne⟩ := split_getLast_ne_nil (y :: t) (by simp) hl'
    by_cases hx : x = '/'
    · subst hx
      refine ⟨seg, ?_, hne⟩
      rw [pySplitCharL_cons_sep]
      rcases hS : pySplitCharL '/' (y :: t) with _ | ⟨s₀, S⟩
      · exact absurd hS (pySplitCharL_ne_nil _ _)
      · rw [List.getLast?_cons_cons, ← hS]
        exact hseg
    · rw [pySplitCharL_cons_ne '/' x _ hx]
      rcases hS : pySplitCharL '/' (y :: t) with _ | ⟨s₀, S⟩
      · exact absurd hS (pySplitCharL_ne_nil _ _)
      · rw [hS] at hseg
        rcases S with _ | ⟨s₁, S'⟩
        · refine ⟨x :: s₀, ?_, by simp⟩
          rfl
        · rw [List.getLast?_cons_cons] at hseg
          refine ⟨seg, ?_, hne⟩
          show ((x :: s₀) :: s₁ :: S').getLast? = some seg
          rw [List.getLast?_cons_cons]
          exact hseg

/-- Filtering preserves the last element when it satisfies the filter. -/
theorem filter_getLast?_of_pos {α} (p : α → Bool) :
    ∀ (xs : List α) (x : α), xs.getLast? = some x → p x = true →
      (xs.filter p).getLast? = some x
  | [], x, h, _ => by simp at h
  | [a], x, h, hp => by
    simp only [List.getLast?_singleton, Option.some.injEq] at h
    subst h
    simp [List.filter, hp]
  | a :: b :: t, x, h, hp => by
    rw [List.getLast?_cons_cons] at h
    have ih := filter_getLast?_of_pos p (b :: t) x h hp
    by_cases hpa : p a = true
    · rw [List.filter_cons_of_pos hpa]
      rcases hL : (b :: t).filter p with _ | ⟨l₀, L⟩
      · rw [hL] at ih
        simp at ih
      · rw [hL] at ih
        rw [List.getLast?_cons_cons]
        exact ih
    · rw [List.filter_cons_of_neg hpa]
      exact ih

/-- Modelled from the spec side, for comparison with the code: the last
non-empty slash-separated segment of the URL, when one exists. -/
def lastNonEmptySegment (url : String) : Option String :=
  (((pySplitCharL '/' url.data).filter (fun seg => seg ≠ [])).getLast?).map String.mk

/-- C8: the identity key `username_of` is invariant under appending a
trailing slash, and it equals the last non-empty path segment of the URL
whenever the URL has a non-empty segment. -/
theorem identity_key_normalization (url : String) (s : String)
    (h : lastNonEmptySegment url = some s) :
    username_of (url ++ "/") = username_of url ∧ username_of url = s := by
  constructor
  · unfold linkedin_scraper_server.username_of
    rw [show (url ++ "/").data = url.data ++ ['/'] from String.data_append url "/",
      pyRstripSlashL_append_sep]
  · unfold linkedin_scraper_server.username_of
    unfold lastNonEmptySegment at h
    obtain ⟨sl, hsl, rfl⟩ := Option.map_eq_some'.mp h
    rw [← filter_split_pyRstripSlashL] at hsl
    set R := pyRstripSlashL url.data with hR
    have hRne : R ≠ [] := by
      intro h0
      rw [h0] at hsl
      simp [pySplitCharL] at hsl
    obtain ⟨seg, hseg, hsegne⟩ :=
      split_getLast_ne_nil R hRne (pyRstripSlashL_getLast_ne url.data)
    have hflt :=
      filter_getLast?_of_pos (fun seg => seg ≠ []) _ _ hseg (by simpa using hsegne)
    rw [hflt] at hsl
    obtain rfl : seg = sl := by injection hsl
    rw [List.getLastD_eq_getLast?, hseg]
    rfl

/-- Witness for C8 at a concrete profile URL. -/
theorem identity_key_normalization_witness :
    lastNonEmptySegment "https://www.linkedin.com/in/jane-doe" = some "jane-doe" ∧
    username_of ("https://www.linkedin.com/in/jane-doe" ++ "/") =
      username_of "https://www.linkedin.com/in/jane-doe" ∧
    username_of "https://www.linkedin.com/in/jane-doe" = "jane-doe" :=
  ⟨rfl, identity_key_normalization "https://www.linkedin.com/in/jane-doe" "jane-doe" rfl⟩

end IdentityKey

section Initiator

open linkedin_scraper_server

/-- Whether the i-th payload variant receives an accepted submission
response: an HTTP 200 whose body parses to a dict (the condition under
which the submission loop breaks). -/
def acceptedAtB (loads : String → Option Json) (trigger : Nat → ProviderResp)
    (i : Nat) : Bool :=
  match trigger i with
  | some h =>
    (h.status == 200) &&
      (match loads h.text with
       | some (.obj _) => true
       | _ => false)
  | none => false

/-- The snapshot id carried by the i-th variant response, if any. -/
def snapshotAt (loads : String → Option Json) (trigger : Nat → ProviderResp)
    (i : Nat) : Option Json :=
  match trigger i with
  | some h =>
    match loads h.text with
    | some (.obj fs) => pyGetKey fs "snapshot_id"
    | _ => none
  | none => none

/-- Whether the submission loop produced a job handle the scraper proceeds
with (`if not snapshot_id: return None`). -/
def jobObtained (loads : String → Option Json) (trigger : Nat → ProviderResp) : Bool :=
  match (triggerGo loads trigger 0 4).1 with
  | some v => v.truthy
  | none => false

/-- Unfolding equation of the submission loop with fuel left. -/
theorem triggerGo_succ (loads : String → Option Json) (trigger : Nat → ProviderResp)
    (k n : Nat) :
    triggerGo loads trigger k (n + 1) =
      match trigger k with
      | some h =>
        if h.status = 200 then
          match loads h.text with
          | some (.obj fs) => (pyGetKey fs "snapshot_id", 1)
          | _ => ((triggerGo loads trigger (k + 1) n).1,
                  (triggerGo loads trigger (k + 1) n).2 + 1)
        else ((triggerGo loads trigger (k + 1) n).1,
              (triggerGo loads trigger (k + 1) n).2 + 1)
      | none => ((triggerGo loads trigger (k + 1) n).1,
                 (triggerGo loads trigger (k + 1) n).2 + 1) := by
  simp only [triggerGo]

/-- One step of the submission loop: a non-accepted variant falls through
to the remaining variants with one more POST; an accepted variant breaks
with the snapshot id of its response after one POST. -/
theorem triggerGo_succ_cases (loads : String → Option Json)
    (trigger : Nat → ProviderResp) (k n : Nat) :
    (acceptedAtB loads trigger k = false ∧
      triggerGo loads trigger k (n + 1) =
        ((triggerGo loads trigger (k + 1) n).1,
         (triggerGo loads trigger (k + 1) n).2 + 1)) ∨
    (acceptedAtB loads trigger k = true ∧
      triggerGo loads trigger k (n + 1) = (snapshotAt loads trigger k, 1)) := by
  rw [triggerGo_succ]
  rcases htk : trigger k with _ | h
  · left
    exact ⟨by simp [acceptedAtB, htk], by simp⟩
  · by_cases hs : h.status = 200
    · rcases hl : loads h.text with _ | j
      · left
        exact ⟨by simp [acceptedAtB, htk, hs, hl], by simp [hs, hl]⟩
      · rcases j with _ | b | nn | ss | xs | fs
        · left
          exact ⟨by simp [acceptedAtB, htk, hs, hl], by simp [hs, hl]⟩
        · left
          exact ⟨by simp [acceptedAtB, htk, hs, hl], by simp [hs, hl]⟩
        · left
          exact ⟨by simp [acceptedAtB, htk, hs, hl], by simp [hs, hl]⟩
        · left
          exact ⟨by simp [acceptedAtB, htk, hs, hl], by simp [hs, hl]⟩
        · left
          exact ⟨by simp [acceptedAtB, htk, hs, hl], by simp [hs, hl]⟩
        · right
          exact ⟨by simp [acceptedAtB, htk, hs, hl],
                 by simp [snapshotAt, htk, hs, hl]⟩
    · left
      exact ⟨by simp [acceptedAtB, htk, hs], by simp [hs]⟩

/-- The submission loop never posts more often than it has variants. -/
theorem triggerGo_posts_le (loads : String → Option Json)
    (trigger : Nat → ProviderResp) :
    ∀ (fuel k : Nat), (triggerGo loads trigger k fuel).2 ≤ fuel := by
  intro fuel
  induction fuel with
  | zero => intro k; simp [triggerGo]
  | succ n ih =>
    intro k
    rcases triggerGo_succ_cases loads trigger k n with ⟨_, hEq⟩ | ⟨_, hEq⟩
    · rw [hEq]
      exact Nat.succ_le_succ (ih (k + 1))
    · rw [hEq]
      exact Nat.succ_le_succ (Nat.zero_le n)

/-- If every variant in the remaining window is rejected or errors, the
loop submits all of them and yields no snapshot id. -/
theorem triggerGo_all_rejected (loads : String → Option Json)
    (trigger : Nat → ProviderResp) :
    ∀ (fuel k : Nat),
      (∀ i, k ≤ i → i < k + fuel → acceptedAtB loads trigger i = false) →
      triggerGo loads trigger k fuel = (none, fuel) := by
  intro fuel
  induction fuel with
  | zero => intro k _; rfl
  | succ n ih =>
    intro k hall
    rcases triggerGo_succ_cases loads trigger k n with ⟨_, hEq⟩ | ⟨hacc, _⟩
    · rw [hEq, ih (k + 1) (fun i h1 h2 => hall i (by omega) (by omega))]
    · rw [hall k le_rfl (by omega)] at hacc
      cases hacc

/-- The loop stops at the first accepted variant and returns the snapshot
id carried by its response. -/
theorem triggerGo_first_accepted (loads : String → Option Json)
    (trigger : Nat → ProviderResp) :
    ∀ (fuel k j : Nat), k ≤ j → j < k + fuel →
      (∀ i, k ≤ i → i < j → acceptedAtB loads trigger i = false) →
      acceptedAtB loads trigger j = true →
      triggerGo loads trigger k fuel = (snapshotAt loads trigger j, j + 1 - k) := by
  intro fuel
  induction fuel with
  | zero => intro k j h1 h2; omega
  | succ n ih =>
    intro k j h1 h2 hbefore hacc
    rcases eq_or_lt_of_le h1 with rfl | hkj
    · rcases triggerGo_succ_cases loads trigger k n with ⟨hf, _⟩ | ⟨_, hEq⟩
      · rw [hacc] at hf
        cases hf
      · rw [hEq]
        have h3 : k + 1 - k = 1 := by omega
        rw [h3]
    · rcases triggerGo_succ_cases loads trigger k n with ⟨_, hEq⟩ | ⟨hacc0, _⟩
      · rw [hEq, ih (k + 1) j (by omega) (by omega)
          (fun i hi1 hi2 => hbefore i (by omega) hi2) hacc]
        show (snapshotAt loads trigger j, j + 1 - (k + 1) + 1) =
          (snapshotAt loads trigger j, j + 1 - k)
        have h3 : j + 1 - (k + 1) + 1 = j + 1 - k := by omega
        rw [h3]
      · rw [hbefore k le_rfl hkj] at hacc0
        cases hacc0

/-- C3, amended: the Scrape Initiator submits the four payload variants in
their fixed order, each at most once (the submitted payloads are an
in-order prefix of `payloads_to_try`); if every variant is rejected or
errors it submits all four and signals failure; the first variant whose
response is accepted (HTTP 200 with a parseable dict body) short-circuits
the remaining variants, and the job proceeds exactly when that response
carries a truthy snapshot id — an accepted response without one also
short-circuits but yields failure. -/
theorem initiator_variant_fallback (loads : String → Option Json)
    (trigger : Nat → ProviderResp) (profile_url : String) :
    ((∀ poll, (scrape_new_profile loads trigger poll profile_url).2.submitted =
        (payloads_to_try profile_url).take (triggerGo loads trigger 0 4).2) ∧
     (triggerGo loads trigger 0 4).2 ≤ 4) ∧
    ((∀ i, i < 4 → acceptedAtB loads trigger i = false) →
      (triggerGo loads trigger 0 4 = (none, 4) ∧ jobObtained loads trigger = false)) ∧
    (∀ j, j < 4 → acceptedAtB loads trigger j = true →
      (∀ i, i < j → acceptedAtB loads trigger i = false) →
      (triggerGo loads trigger 0 4 = (snapshotAt loads trigger j, j + 1) ∧
        jobObtained loads trigger =
          (match snapshotAt loads trigger j with
           | some v => v.truthy
           | none => false))) := by
  refine ⟨⟨?_, triggerGo_posts_le loads trigger 4 0⟩, ?_, ?_⟩
  · intro poll
    simp only [linkedin_scraper_server.scrape_new_profile]
    repeat (first | rfl | split)
  · intro hall
    have h := triggerGo_all_rejected loads trigger 4 0 (fun i _ hi => hall i (by omega))
    refine ⟨h, ?_⟩
    unfold jobObtained
    rw [h]
  · intro j hj hacc hbefore
    have h := triggerGo_first_accepted loads trigger 4 0 j (by omega) (by omega)
      (fun i _ hi => hbefore i hi) hacc
    rw [Nat.sub_zero] at h
    refine ⟨h, ?_⟩
    unfold jobObtained
    rw [h]

/-- Witness for C3 (amended) at a concrete environment: the first variant
is rejected with HTTP 500, the second is accepted and carries a snapshot
id, so exactly two variants are submitted and the job proceeds. -/
theorem initiator_variant_fallback_witness :
    linkedin_scraper_server.triggerGo
        (fun s => if s = "OK" then some (.obj [("snapshot_id", .str "snap1")]) else none)
        (fun i => if i = 0 then some ⟨500, ""⟩ else some ⟨200, "OK"⟩) 0 4 =
      (some (.str "snap1"), 2) :=
  ((initiator_variant_fallback
      (fun s => if s = "OK" then some (.obj [("snapshot_id", .str "snap1")]) else none)
      (fun i => if i = 0 then some ⟨500, ""⟩ else some ⟨200, "OK"⟩)
      "https://www.linkedin.com/in/jane-doe/").2.2 1 (by omega) rfl
      (fun i hi => by
        have hi0 : i = 0 := by omega
        subst hi0
        rfl)).1

/-- Counterexample to C3 as stated: the first variant receives an accepted
HTTP 200 response, but its parsed body carries no snapshot id; the
initiator stops after this single submission (the remaining variants are
neither submitted nor rejected) and signals failure, so failure does not
occur only when every variant is rejected or errors, and an accepted
response does not always yield a job handle. -/
theorem initiator_accepted_without_handle :
    acceptedAtB (fun s => if s = "EMPTY" then some (.obj []) else none)
        (fun i => if i = 0 then some ⟨200, "EMPTY"⟩ else some ⟨400, ""⟩) 0 = true ∧
    linkedin_scraper_server.triggerGo
        (fun s => if s = "EMPTY" then some (.obj []) else none)
        (fun i => if i = 0 then some ⟨200, "EMPTY"⟩ else some ⟨400, ""⟩) 0 4 = (none, 1) ∧
    jobObtained (fun s => if s = "EMPTY" then some (.obj []) else none)
        (fun i => if i = 0 then some ⟨200, "EMPTY"⟩ else some ⟨400, ""⟩) = false :=
  ⟨rfl, rfl, rfl⟩

end Initiator

section PollStepSpec

open linkedin_scraper_server

/-- Whether a parsed payload carries an in-progress status marker: only a
dict with a `status` key does. -/
def hasStatusMarker : Json → Bool
  | .obj fs => (pyGetKey fs "status").isSome
  | _ => false

/-- Whether a parsed value is a dict. -/
def Json.isObj : Json → Bool
  | .obj _ => true
  | _ => false

/-- Success characterization of one poll step. -/
theorem pollStep_eq_success_iff (loads : String → Option Json) (h : HttpResp) :
    ∀ p, pollStep loads (some h) = .success p ↔
      (h.status = 200 ∧
        ((loads h.text = some p ∧ hasStatusMarker p = false) ∨
         (loads h.text = none ∧ firstLine h.text ≠ "" ∧
            loads (firstLine h.text) = some p))) := by
  intro p
  by_cases hs : h.status = 200
  · rcases hl : loads h.text with _ | j
    · by_cases hfl : firstLine h.text = ""
      · have hstep : pollStep loads (some h) = .retryNow := by
          simp [pollStep, hs, hl, hfl]
        rw [hstep]
        simp [hl, hfl]
      · rcases hflv : loads (firstLine h.text) with _ | q
        · have hstep : pollStep loads (some h) = .failed := by
            simp [pollStep, hs, hl, hfl, hflv]
          rw [hstep]
          simp [hl, hfl, hflv]
        · have hstep : pollStep loads (some h) = .success q := by
            simp [pollStep, hs, hl, hfl, hflv]
          rw [hstep]
          constructor
          · intro hsucc
            injection hsucc with hq
            subst hq
            exact ⟨hs, Or.inr ⟨rfl, hfl, rfl⟩⟩
          · rintro ⟨_, ⟨hp, _⟩ | ⟨_, _, hp⟩⟩
            · cases hp
            · injection hp with hp
              rw [hp]
    · by_cases hm : hasStatusMarker j = true
      · obtain ⟨fs, rfl⟩ : ∃ fs, j = Json.obj fs := by
          cases j <;> first
            | exact ⟨_, rfl⟩
            | simp [hasStatusMarker] at hm
        obtain ⟨v, hk⟩ :=
          Option.isSome_iff_exists.mp (by simpa [hasStatusMarker] using hm)
        have hstep : pollStep loads (some h) = .sleepRetry := by
          simp [pollStep, hs, hl, hk]
        rw [hstep]
        constructor
        · intro hcon
          cases hcon
        · rintro ⟨_, ⟨hp, hmark⟩ | ⟨hcon, _⟩⟩
          · injection hp with hp
            subst hp
            rw [hmark] at hm
            cases hm
          · cases hcon
      · have hstep : pollStep loads (some h) = .success j := by
          rcases j with _ | b | nn | ss | xs | fs
          · simp [pollStep, hs, hl]
          · simp [pollStep, hs, hl]
          · simp [pollStep, hs, hl]
          · simp [pollStep, hs, hl]
          · simp [pollStep, hs, hl]
          · rcases hk : pyGetKey fs "status" with _ | v
            · simp [pollStep, hs, hl, hk]
            · simp [hasStatusMarker, hk] at hm
        rw [hstep]
        constructor
        · intro hsucc
          injection hsucc with hp
          subst hp
          exact ⟨hs, Or.inl ⟨rfl, by simpa using hm⟩⟩
        · rintro ⟨_, ⟨hp, _⟩ | ⟨hcon, _⟩⟩
          · injection hp with hp
            rw [hp]
          · cases hcon
  · have hstep : (pollStep loads (some h) = .sleepRetry) ∨
        (pollStep loads (some h) = .failed) := by
      by_cases hs2 : h.status = 202
      · rcases hl : loads h.text with _ | j
        · left
          simp [pollStep, hs, hs2, hl]
        · rcases j with _ | b | nn | ss | xs | fs
          · right
            simp [pollStep, hs, hs2, hl]
          · right
            simp [pollStep, hs, hs2, hl]
          · right
            simp [pollStep, hs, hs2, hl]
          · right
            simp [pollStep, hs, hs2, hl]
          · right
            simp [pollStep, hs, hs2, hl]
          · left
            simp [pollStep, hs, hs2, hl]
      · right
        simp [pollStep, hs, hs2]
    rcases hstep with hstep | hstep <;> rw [hstep] <;> simp [hs]

/-- Failure characterization of one poll step on a delivered response. -/
theorem pollStep_eq_failed_iff (loads : String → Option Json) (h : HttpResp) :
    pollStep loads (some h) = .failed ↔
      ((h.status ≠ 200 ∧ h.status ≠ 202) ∨
       (h.status = 200 ∧ loads h.text = none ∧ firstLine h.text ≠ "" ∧
          loads (firstLine h.text) = none) ∨
       (h.status = 202 ∧ ∃ j, loads h.text = some j ∧ j.isObj = false)) := by
  by_cases hs : h.status = 200
  · rcases hl : loads h.text with _ | j
    · by_cases hfl : firstLine h.text = ""
      · have hstep : pollStep loads (some h) = .retryNow := by
          simp [pollStep, hs, hl, hfl]
        rw [hstep]
        simp [hs, hl, hfl]
      · rcases hflv : loads (firstLine h.text) with _ | q
        · have hstep : pollStep loads (some h) = .failed := by
            simp [pollStep, hs, hl, hfl, hflv]
          rw [hstep]
          simp [hs, hl, hfl, hflv]
        · have hstep : pollStep loads (some h) = .success q := by
            simp [pollStep, hs, hl, hfl, hflv]
          rw [hstep]
          simp [hs, hl, hfl, hflv]
    · by_cases hm : hasStatusMarker j = true
      · obtain ⟨fs, rfl⟩ : ∃ fs, j = Json.obj fs := by
          cases j <;> first
            | exact ⟨_, rfl⟩
            | simp [hasStatusMarker] at hm
        obtain ⟨v, hk⟩ :=
          Option.isSome_iff_exists.mp (by simpa [hasStatusMarker] using hm)
        have hstep : pollStep loads (some h) = .sleepRetry := by
          simp [pollStep, hs, hl, hk]
        rw [hstep]
        simp [hs, hl]
      · have hstep : pollStep loads (some h) = .success j := by
          rcases j with _ | b | nn | ss | xs | fs
          · simp [pollStep, hs, hl]
          · simp [pollStep, hs, hl]
          · simp [pollStep, hs, hl]
          · simp [pollStep, hs, hl]
          · simp [pollStep, hs, hl]
          · rcases hk : pyGetKey fs "status" with _ | v
            · simp [pollStep, hs, hl, hk]
            · simp [hasStatusMarker, hk] at hm
        rw [hstep]
        simp [hs, hl]
  · by_cases hs2 : h.status = 202
    · rcases hl : loads h.text with _ | j
      · have hstep : pollStep loads (some h) = .sleepRetry := by
          simp [pollStep, hs, hs2, hl]
        rw [hstep]
        simp [hs, hs2]
      · rcases j with _ | b | nn | ss | xs | fs
        · have hstep : pollStep loads (some h) = .failed := by
            simp [pollStep, hs, hs2, hl]
          rw [hstep]
          simp [hs, hs2, Json.isObj]
        · have hstep : pollStep loads (some h) = .failed := by
            simp [pollStep, hs, hs2, hl]
          rw [hstep]
          simp [hs, hs2, Json.isObj]
        · have hstep : pollStep loads (some h) = .failed := by
            simp [pollStep, hs, hs2, hl]
          rw [hstep]
          simp [hs, hs2, Json.isObj]
        · have hstep : pollStep loads (some h) = .failed := by
            simp [pollStep, hs, hs2, hl]
          rw [hstep]
          simp [hs, hs2, Json.isObj]
        · have hstep : pollStep loads (some h) = .failed := by
            simp [pollStep, hs, hs2, hl]
          rw [hstep]
          simp [hs, hs2, Json.isObj]
        · have hstep : pollStep loads (some h) = .sleepRetry := by
            simp [pollStep, hs, hs2, hl]
          rw [hstep]
          simp [hs, hs2, Json.isObj]
    · have hstep : pollStep loads (some h) = .failed := by
        simp [pollStep, hs, hs2]
      rw [hstep]
      simp [hs, hs2]

/-- A 200 response whose body fails the primary parse and strips to an
empty first line makes the poller retry immediately. -/
theorem pollStep_retryNow_of_empty (loads : String → Option Json) (h : HttpResp)
    (hs : h.status = 200) (hl : loads h.text = none)
    (hfl : firstLine h.text = "") :
    pollStep loads (some h) = .retryNow := by
  simp [pollStep, hs, hl, hfl]

/-- C4, amended: on an HTTP 200 poll response the poller succeeds with
payload `p` exactly when either the body parses to a payload with no
in-progress status marker, or the primary parse fails and the non-empty
first line of the stripped body parses to `p`; it transitions to failed
exactly when the HTTP status is outside the in-progress/success set
{200, 202}, or on a 200 the primary parse fails and the non-empty first
line also fails to parse, or a 202 body parses to a non-dict (whose
`.get` raises an `AttributeError` that only the outer except catches).
When the primary parse fails on a 200 and the stripped body has an empty
first line, the poller neither succeeds nor fails: it retries
immediately. -/
theorem pollStep_success_failure_characterization (loads : String → Option Json)
    (h : HttpResp) :
    (∀ p, pollStep loads (some h) = .success p ↔
      (h.status = 200 ∧
        ((loads h.text = some p ∧ hasStatusMarker p = false) ∨
         (loads h.text = none ∧ firstLine h.text ≠ "" ∧
            loads (firstLine h.text) = some p)))) ∧
    (pollStep loads (some h) = .failed ↔
      ((h.status ≠ 200 ∧ h.status ≠ 202) ∨
       (h.status = 200 ∧ loads h.text = none ∧ firstLine h.text ≠ "" ∧
          loads (firstLine h.text) = none) ∨
       (h.status = 202 ∧ ∃ j, loads h.text = some j ∧ j.isObj = false))) ∧
    (h.status = 200 → loads h.text = none → firstLine h.text = "" →
      pollStep loads (some h) = .retryNow) :=
  ⟨pollStep_eq_success_iff loads h, pollStep_eq_failed_iff loads h,
   fun hs hl hfl => pollStep_retryNow_of_empty loads h hs hl hfl⟩

/-- Witness for C4 (amended) at a concrete response: HTTP 404 makes the
poller fail. -/
theorem pollStep_success_failure_characterization_witness :
    pollStep (fun _ => none) (some ⟨404, ""⟩) = .failed :=
  ((pollStep_success_failure_characterization (fun _ => none) ⟨404, ""⟩).2.1).mpr
    (Or.inl ⟨by decide, by decide⟩)

/-- Counterexample to C4 as stated: an HTTP 200 response with an empty
body.  Neither the primary decoder nor the first-line fallback can parse
it (the fallback is not even attempted), yet the poller does not
transition to failed — it polls again. -/
theorem pollStep_empty_body_not_failed :
    (fun _ => (none : Option Json)) "" = none ∧
    pollStep (fun _ => none) (some ⟨200, ""⟩) = .retryNow ∧
    pollStep (fun _ => none) (some ⟨200, ""⟩) ≠ .failed := by
  refine ⟨rfl, rfl, ?_⟩
  intro hcon
  rw [show pollStep (fun _ => none) (some ⟨200, ""⟩) = .retryNow from rfl] at hcon
  cases hcon

end PollStepSpec

section DuplicateGuard

open linkedin_scraper_server

end DuplicateGuard

section ActivityCap

open linkedin_scraper_server

/-- The length of a Python string slice `s[:n]` is at most `n`. -/
theorem pySlice_length_le (s : String) (n : Nat) : (s.take n).length ≤ n := by
  rw [String.take_eq]
  show (s.data.take n).length ≤ n
  exact List.length_take_le n s.data

/-- Mapping `activity_record` over a list of well-formed activity events
(dicts with a string title) succeeds and produces one episodic record per
event, in order, embedding the title truncated to 100 characters. -/
theorem activity_mapM_spec (username user_id : String) (fs : List (String × Json)) :
    ∀ (l : List Json),
      (∀ a ∈ l, ∃ afs t, a = Json.obj afs ∧ pyGetKey afs "title" = some (.str t)) →
      ∃ recs, l.mapM (activity_record username user_id fs) = .ok recs ∧
        recs.length = l.length ∧
        (∀ rec ∈ recs, rec.memory_type = .episodic) ∧
        (∀ (i : Nat) afs t, l[i]? = some (.obj afs) →
          pyGetKey afs "title" = some (.str t) →
          recs[i]? = some
            { text := username ++ " activity: " ++
                Json.pyStr (pyGetD afs "interaction" (.str "Unknown")) ++ " - " ++
                t.take 100,
              memory_type := .episodic,
              topics := ["linkedin", "activity", username, "engagement"],
              entities := [.str username, pyGetD fs "name" (.str "")],
              nspace := "linkedin_scraper",
              user_id := user_id }) := by
  intro l
  induction l with
  | nil =>
    intro _
    refine ⟨[], rfl, rfl, by simp, ?_⟩
    intro i afs t hl
    simp at hl
  | cons a l ih =>
    intro hall
    obtain ⟨afs, t, rfl, htitle⟩ := hall a (by simp)
    obtain ⟨recs, hrecs, hlen, hepi, hidx⟩ := ih (fun x hx => hall x (by simp [hx]))
    have ha : activity_record username user_id fs (Json.obj afs) =
        .ok { text := username ++ " activity: " ++
                Json.pyStr (pyGetD afs "interaction" (.str "Unknown")) ++ " - " ++
                t.take 100,
              memory_type := .episodic,
              topics := ["linkedin", "activity", username, "engagement"],
              entities := [.str username, pyGetD fs "name" (.str "")],
              nspace := "linkedin_scraper",
              user_id := user_id } := by
      simp only [activity_record, pyGetD, htitle, pySlice100]
      rfl
    refine ⟨{ text := username ++ " activity: " ++
                Json.pyStr (pyGetD afs "interaction" (.str "Unknown")) ++ " - " ++
                t.take 100,
              memory_type := .episodic,
              topics := ["linkedin", "activity", username, "engagement"],
              entities := [.str username, pyGetD fs "name" (.str "")],
              nspace := "linkedin_scraper",
              user_id := user_id } :: recs, ?_, by simpa using hlen, ?_, ?_⟩
    · rw [List.mapM_cons, ha, hrecs]
      rfl
    · intro rec hrec
      rcases List.mem_cons.mp hrec with rfl | hrec
      · rfl
      · exact hepi rec hrec
    · intro i afs2 t2 hl ht
      cases i with
      | zero =>
        rw [List.getElem?_cons_zero] at hl
        injection hl with hl
        injection hl with hl
        subst hl
        rw [htitle] at ht
        injection ht with ht
        injection ht with ht
        subst ht
        exact List.getElem?_cons_zero
      | succ i =>
        rw [List.getElem?_cons_succ] at hl ⊢
        exact hidx i afs2 t2 hl ht

/-- Construction of the semantic record succeeds whenever
`current_company` is absent or a dict, with the full serialized profile as
its text. -/
theorem profile_record_spec (username user_id : String) (fs : List (String × Json))
    (hcc : ∀ cc, pyGetKey fs "current_company" = some cc → ∃ ccfs, cc = Json.obj ccfs) :
    ∃ pr, profile_record username user_id fs = .ok pr ∧
      pr.memory_type = .semantic ∧ pr.text = Json.dumps (.obj fs) := by
  rcases hk : pyGetKey fs "current_company" with _ | cc
  · have hpr : profile_record username user_id fs = .ok
        { text := Json.dumps (.obj fs), memory_type := .semantic,
          topics := ["linkedin", "profile", username, "scraped_data"],
          entities := [.str username, pyGetD fs "name" (.str ""),
            pyGetD ([] : List (String × Json)) "name" (.str "")],
          nspace := "linkedin_scraper", user_id := user_id } := by
      simp [profile_record, pyGetD, hk]
    exact ⟨_, hpr, rfl, rfl⟩
  · obtain ⟨ccfs, rfl⟩ := hcc cc hk
    have hpr : profile_record username user_id fs = .ok
        { text := Json.dumps (.obj fs), memory_type := .semantic,
          topics := ["linkedin", "profile", username, "scraped_data"],
          entities := [.str username, pyGetD fs "name" (.str ""),
            pyGetD ccfs "name" (.str "")],
          nspace := "linkedin_scraper", user_id := user_id } := by
      simp [profile_record, pyGetD, hk]
    exact ⟨_, hpr, rfl, rfl⟩

/-- C6: when the orchestration persists a scraped record carrying more
than 10 activity events (cache miss, successful scrape, duplicate check
negative, well-formed events), the single batch written to the store
consists of exactly one semantic record holding the full serialized
profile followed by exactly 10 episodic records, one per event in order,
each embedding the event title truncated to at most 100 characters. -/
theorem activity_cap_single_batch (loads : String → Option Json) (env : Env)
    (profile_url user_id : String) (fs : List (String × Json)) (acts : List Json)
    (hmiss : cache_lookup loads env.searchResp1 = none)
    (hscrape : (scrape_new_profile loads env.trigger env.poll profile_url).1 =
      some (.obj fs))
    (hnodup : check_existing loads (username_of profile_url) env.searchResp2 = .ok false)
    (hcc : ∀ cc, pyGetKey fs "current_company" = some cc → ∃ ccfs, cc = Json.obj ccfs)
    (hact : pyGetKey fs "activity" = some (.arr acts))
    (hlen : 10 < acts.length)
    (hevents : ∀ a ∈ acts.take 10, ∃ afs t, a = Json.obj afs ∧
      pyGetKey afs "title" = some (.str t)) :
    ∃ pr epis,
      smart_linkedin_scraper loads env profile_url user_id =
        (.ok (.obj fs),
         ⟨[cache_search (username_of profile_url) user_id,
           existing_search (username_of profile_url) user_id],
          (scrape_new_profile loads env.trigger env.poll profile_url).2,
          [pr :: epis], true⟩) ∧
      pr.memory_type = .semantic ∧
      pr.text = Json.dumps (.obj fs) ∧
      epis.length = 10 ∧
      (∀ rec ∈ epis, rec.memory_type = .episodic) ∧
      (∀ (i : Nat) afs t, i < 10 → acts[i]? = some (.obj afs) →
        pyGetKey afs "title" = some (.str t) →
        epis[i]? = some
          { text := username_of profile_url ++ " activity: " ++
              Json.pyStr (pyGetD afs "interaction" (.str "Unknown")) ++ " - " ++
              t.take 100,
            memory_type := .episodic,
            topics := ["linkedin", "activity", username_of profile_url, "engagement"],
            entities := [.str (username_of profile_url), pyGetD fs "name" (.str "")],
            nspace := "linkedin_scraper",
            user_id := user_id } ∧
        (t.take 100).length ≤ 100) := by
  obtain ⟨pr, hpr, hprsem, hprtext⟩ :=
    profile_record_spec (username_of profile_url) user_id fs hcc
  obtain ⟨epis, hmapm, hlen2, hepi, hidx⟩ :=
    activity_mapM_spec (username_of profile_url) user_id fs (acts.take 10) hevents
  have hne : acts ≠ [] := by
    intro h0
    rw [h0] at hlen
    simp at hlen
  have htr : Json.truthy (Json.arr acts) = true := by
    simp [Json.truthy, hne]
  have har : activity_records (username_of profile_url) user_id fs = .ok epis := by
    simp only [activity_records, hact, htr, if_true]
    exact hmapm
  have hbm : build_memories (username_of profile_url) (.obj fs) user_id =
      .ok (pr :: epis) := by
    simp only [build_memories, hpr, har]
    rfl
  refine ⟨pr, epis, ?_, hprsem, hprtext, ?_, hepi, ?_⟩
  · simp only [smart_linkedin_scraper, hmiss, hscrape, hnodup, hbm]
  · rw [hlen2, List.length_take]
    omega
  · intro i afs t hi hl ht
    have hl10 : (acts.take 10)[i]? = some (.obj afs) := by
      rw [List.getElem?_take]
      simp [hi, hl]
    exact ⟨hidx i afs t hl10 ht, pySlice_length_le t 100⟩

/-- A well-formed activity event used by the C6 witness. -/
def c6event : Json := .obj [("interaction", .str "Like"), ("title", .str "Hello")]

/-- The scraped profile of the C6 witness: eleven activity events. -/
def c6fields : List (String × Json) :=
  [("name", .str "Jane"), ("activity", .arr (List.replicate 11 c6event))]

/-- Parse function of the C6 witness environment. -/
def c6loads : String → Option Json := fun s =>
  if s = "T" then some (.obj [("snapshot_id", .str "s1")])
  else if s = "P" then some (.obj c6fields)
  else none

/-- C6 witness environment: empty cache, provider accepting at once and
returning the profile with eleven activities, empty wider search. -/
def c6env : Env :=
  ⟨[], fun _ => some ⟨200, "T"⟩, fun _ => some ⟨200, "P"⟩, []⟩

/-- Witness for C6 at the concrete environment. -/
theorem activity_cap_single_batch_witness :
    ∃ pr epis,
      smart_linkedin_scraper c6loads c6env
          "https://www.linkedin.com/in/jane/" "scraper_user" =
        (.ok (.obj c6fields),
         ⟨[cache_search (username_of "https://www.linkedin.com/in/jane/") "scraper_user",
           existing_search (username_of "https://www.linkedin.com/in/jane/") "scraper_user"],
          (scrape_new_profile c6loads c6env.trigger c6env.poll
            "https://www.linkedin.com/in/jane/").2,
          [pr :: epis], true⟩) ∧
      pr.memory_type = .semantic ∧
      pr.text = Json.dumps (.obj c6fields) ∧
      epis.length = 10 ∧
      (∀ rec ∈ epis, rec.memory_type = .episodic) ∧
      (∀ (i : Nat) afs t, i < 10 →
        (List.replicate 11 c6event)[i]? = some (.obj afs) →
        pyGetKey afs "title" = some (.str t) →
        epis[i]? = some
          { text := username_of "https://www.linkedin.com/in/jane/" ++ " activity: " ++
              Json.pyStr (pyGetD afs "interaction" (.str "Unknown")) ++ " - " ++
              t.take 100,
            memory_type := .episodic,
            topics := ["linkedin", "activity",
              username_of "https://www.linkedin.com/in/jane/", "engagement"],
            entities := [.str (username_of "https://www.linkedin.com/in/jane/"),
              pyGetD c6fields "name" (.str "")],
            nspace := "linkedin_scraper",
            user_id := "scraper_user" } ∧
        (t.take 100).length ≤ 100) :=
  activity_cap_single_batch c6loads c6env "https://www.linkedin.com/in/jane/"
    "scraper_user" c6fields (List.replicate 11 c6event) rfl rfl rfl
    (fun cc hcon => by cases hcon)
    rfl (by decide)
    (by
      intro a ha
      have hmem := List.mem_of_mem_take ha
      rw [List.eq_of_mem_replicate hmem]
      exact ⟨[("interaction", .str "Like"), ("title", .str "Hello")], "Hello", rfl, rfl⟩)

end ActivityCap

section ModuleEquivalence

/-- The two modules build identical payload variant lists. -/
theorem payloads_to_try_eq :
    linkedin_scraper_server.payloads_to_try = mcp_brightdata_test.payloads_to_try := rfl

/-- The two modules use the same polling budget. -/
theorem max_attempts_eq :
    linkedin_scraper_server.max_attempts = mcp_brightdata_test.max_attempts := rfl

/-- The two modules handle a poll response identically. -/
theorem pollStep_eq :
    linkedin_scraper_server.pollStep = mcp_brightdata_test.pollStep := rfl

/-- Unfolding equation of the test module submission loop with fuel left. -/
theorem triggerGo_succ_test (loads : String → Option Json)
    (trigger : Nat → ProviderResp) (k n : Nat) :
    mcp_brightdata_test.triggerGo loads trigger k (n + 1) =
      match trigger k with
      | some h =>
        if h.status = 200 then
          match loads h.text with
          | some (.obj fs) => (pyGetKey fs "snapshot_id", 1)
          | _ => ((mcp_brightdata_test.triggerGo loads trigger (k + 1) n).1,
                  (mcp_brightdata_test.triggerGo loads trigger (k + 1) n).2 + 1)
        else ((mcp_brightdata_test.triggerGo loads trigger (k + 1) n).1,
              (mcp_brightdata_test.triggerGo loads trigger (k + 1) n).2 + 1)
      | none => ((mcp_brightdata_test.triggerGo loads trigger (k + 1) n).1,
                 (mcp_brightdata_test.triggerGo loads trigger (k + 1) n).2 + 1) := by
  simp only [mcp_brightdata_test.triggerGo]

/-- The two modules run the same submission loop. -/
theorem triggerGo_eq (loads : String → Option Json) (trigger : Nat → ProviderResp) :
    ∀ (fuel k : Nat), linkedin_scraper_server.triggerGo loads trigger k fuel =
      mcp_brightdata_test.triggerGo loads trigger k fuel := by
  intro fuel
  induction fuel with
  | zero => intro k; rfl
  | succ n ih =>
    intro k
    rw [triggerGo_succ, triggerGo_succ_test, ih (k + 1)]

/-- Function-level form of `triggerGo_eq`. -/
theorem triggerGo_eq_fun :
    linkedin_scraper_server.triggerGo = mcp_brightdata_test.triggerGo := by
  funext loads trigger k fuel
  exact triggerGo_eq loads trigger fuel k

/-- Unfolding equation of the server module poll loop with fuel left. -/
theorem pollGo_succ_server (loads : String → Option Json)
    (poll : Nat → ProviderResp) (k n : Nat) :
    linkedin_scraper_server.pollGo loads poll k (n + 1) =
      match linkedin_scraper_server.pollStep loads (poll k) with
      | .success j => (some j, 1, [])
      | .failed => (none, 1, [])
      | .sleepRetry => ((linkedin_scraper_server.pollGo loads poll (k + 1) n).1,
          (linkedin_scraper_server.pollGo loads poll (k + 1) n).2.1 + 1,
          10 :: (linkedin_scraper_server.pollGo loads poll (k + 1) n).2.2)
      | .retryNow => ((linkedin_scraper_server.pollGo loads poll (k + 1) n).1,
          (linkedin_scraper_server.pollGo loads poll (k + 1) n).2.1 + 1,
          (linkedin_scraper_server.pollGo loads poll (k + 1) n).2.2) := by
  simp only [linkedin_scraper_server.pollGo]

/-- Unfolding equation of the test module poll loop with fuel left. -/
theorem pollGo_succ_test (loads : String → Option Json)
    (poll : Nat → ProviderResp) (k n : Nat) :
    mcp_brightdata_test.pollGo loads poll k (n + 1) =
      match mcp_brightdata_test.pollStep loads (poll k) with
      | .success j => (some j, 1, [])
      | .failed => (none, 1, [])
      | .sleepRetry => ((mcp_brightdata_test.pollGo loads poll (k + 1) n).1,
          (mcp_brightdata_test.pollGo loads poll (k + 1) n).2.1 + 1,
          10 :: (mcp_brightdata_test.pollGo loads poll (k + 1) n).2.2)
      | .retryNow => ((mcp_brightdata_test.pollGo loads poll (k + 1) n).1,
          (mcp_brightdata_test.pollGo loads poll (k + 1) n).2.1 + 1,
          (mcp_brightdata_test.pollGo loads poll (k + 1) n).2.2) := by
  simp only [mcp_brightdata_test.pollGo]

/-- The two modules run the same poll loop. -/
theorem pollGo_eq (loads : String → Option Json) (poll : Nat → ProviderResp) :
    ∀ (fuel k : Nat), linkedin_scraper_server.pollGo loads poll k fuel =
      mcp_brightdata_test.pollGo loads poll k fuel := by
  intro fuel
  induction fuel with
  | zero => intro k; rfl
  | succ n ih =>
    intro k
    rw [pollGo_succ_server, pollGo_succ_test, pollStep_eq, ih (k + 1)]

/-- Function-level form of `pollGo_eq`. -/
theorem pollGo_eq_fun :
    linkedin_scraper_server.pollGo = mcp_brightdata_test.pollGo := by
  funext loads poll k fuel
  exact pollGo_eq loads poll fuel k

/-- The two copies of `_scrape_new_profile` are the same function. -/
theorem scrape_new_profile_eq :
    linkedin_scraper_server.scrape_new_profile =
      mcp_brightdata_test.scrape_new_profile := by
  funext loads trigger poll profile_url
  simp only [linkedin_scraper_server.scrape_new_profile,
    mcp_brightdata_test.scrape_new_profile, payloads_to_try_eq, max_attempts_eq,
    triggerGo_eq_fun, pollGo_eq_fun]

/-- The two modules derive the identity key identically. -/
theorem username_of_eq :
    linkedin_scraper_server.username_of = mcp_brightdata_test.username_of := rfl

/-- The two modules issue the same cache-lookup search. -/
theorem cache_search_eq :
    linkedin_scraper_server.cache_search = mcp_brightdata_test.cache_search := rfl

/-- The two modules issue the same pre-persist search. -/
theorem existing_search_eq :
    linkedin_scraper_server.existing_search = mcp_brightdata_test.existing_search := rfl

/-- The two modules interpret the cache-lookup result identically. -/
theorem cache_lookup_eq :
    linkedin_scraper_server.cache_lookup = mcp_brightdata_test.cache_lookup := rfl

/-- The two modules compare identity indicators identically. -/
theorem matches_username_eq :
    linkedin_scraper_server.matches_username = mcp_brightdata_test.matches_username := rfl

/-- The two modules run the same duplicate-check loop. -/
theorem check_existing_eq (loads : String → Option Json) (username : String) :
    ∀ ms, linkedin_scraper_server.check_existing loads username ms =
      mcp_brightdata_test.check_existing loads username ms := by
  intro ms
  induction ms with
  | nil => rfl
  | cons m rest ih =>
    rcases hl : loads m.text with _ | j
    · simp only [linkedin_scraper_server.check_existing,
        mcp_brightdata_test.check_existing, hl]
      exact ih
    · rcases j with _ | b | nn | ss | xs | fs
      · simp [linkedin_scraper_server.check_existing,
          mcp_brightdata_test.check_existing, hl]
      · simp [linkedin_scraper_server.check_existing,
          mcp_brightdata_test.check_existing, hl]
      · simp [linkedin_scraper_server.check_existing,
          mcp_brightdata_test.check_existing, hl]
      · simp [linkedin_scraper_server.check_existing,
          mcp_brightdata_test.check_existing, hl]
      · simp [linkedin_scraper_server.check_existing,
          mcp_brightdata_test.check_existing, hl]
      · simp only [linkedin_scraper_server.check_existing,
          mcp_brightdata_test.check_existing, hl, matches_username_eq, ih]

/-- Function-level form of `check_existing_eq`. -/
theorem check_existing_eq_fun :
    linkedin_scraper_server.check_existing = mcp_brightdata_test.check_existing := by
  funext loads username ms
  exact check_existing_eq loads username ms

/-- The two modules build the same semantic record. -/
theorem profile_record_eq :
    linkedin_scraper_server.profile_record = mcp_brightdata_test.profile_record := rfl

/-- The two modules build the same episodic records. -/
theorem activity_records_eq :
    linkedin_scraper_server.activity_records =
      mcp_brightdata_test.activity_records := rfl

/-- The two modules build the same write batch. -/
theorem build_memories_eq :
    linkedin_scraper_server.build_memories = mcp_brightdata_test.build_memories := rfl

/-- C10: the two copies of the scrape/poll/cache algorithm are
behaviorally equivalent: for every parse function, environment, URL and
user id, `smart_linkedin_scraper` in the server module and in the test
module are the same function — same result, same searches, same provider
calls, same store writes — and so are the two copies of
`_scrape_new_profile`. -/
theorem modules_behaviorally_equivalent :
    linkedin_scraper_server.smart_linkedin_scraper =
      mcp_brightdata_test.smart_linkedin_scraper ∧
    linkedin_scraper_server.scrape_new_profile =
      mcp_brightdata_test.scrape_new_profile := by
  refine ⟨?_, scrape_new_profile_eq⟩
  funext loads env profile_url user_id
  simp only [linkedin_scraper_server.smart_linkedin_scraper,
    mcp_brightdata_test.smart_linkedin_scraper, username_of_eq, cache_search_eq,
    cache_lookup_eq, scrape_new_profile_eq, existing_search_eq,
    check_existing_eq_fun, build_memories_eq]

end ModuleEquivalence
